import Mathlib

/-!
Verification of the music-ideator repository.

Part 1 embeds the pure computation kernels of
`examples/music_ideator/music_theory_server.py` (`MusicTheoryEngine`) and
`examples/music_ideator/daw_driver_server.py` (`DAWDriverEngine`).
Part 2 models the per-application observability isolation subsystem
(`TracingConfig`, `GlobalBootstrap`, `AppContext`, `CleanupCoordinator`)
whose implementation is exercised by `tests/test_tracing_isolation.py`.
-/

namespace MusicTheory

/-- Table `MusicTheoryEngine.MAJOR_SCALE_CHORDS`: diatonic chords of each major key. -/
def MAJOR_SCALE_CHORDS : List (String × List String) :=
  [("C", ["C", "Dm", "Em", "F", "G", "Am", "Bdim"]),
   ("D", ["D", "Em", "F#m", "G", "A", "Bm", "C#dim"]),
   ("E", ["E", "F#m", "G#m", "A", "B", "C#m", "D#dim"]),
   ("F", ["F", "Gm", "Am", "Bb", "C", "Dm", "Edim"]),
   ("G", ["G", "Am", "Bm", "C", "D", "Em", "F#dim"]),
   ("A", ["A", "Bm", "C#m", "D", "E", "F#m", "G#dim"]),
   ("B", ["B", "C#m", "D#m", "E", "F#", "G#m", "A#dim"])]

/-- Table `MusicTheoryEngine.MINOR_SCALE_CHORDS`: diatonic chords of each minor key. -/
def MINOR_SCALE_CHORDS : List (String × List String) :=
  [("Am", ["Am", "Bdim", "C", "Dm", "Em", "F", "G"]),
   ("Bm", ["Bm", "C#dim", "D", "Em", "F#m", "G", "A"]),
   ("Cm", ["Cm", "Ddim", "Eb", "Fm", "Gm", "Ab", "Bb"]),
   ("Dm", ["Dm", "Edim", "F", "Gm", "Am", "Bb", "C"]),
   ("Em", ["Em", "F#dim", "G", "Am", "Bm", "C", "D"]),
   ("F#m", ["F#m", "G#dim", "A", "Bm", "C#m", "D", "E"]),
   ("Gm", ["Gm", "Adim", "Bb", "Cm", "Dm", "Eb", "F"])]

/-- Table `MusicTheoryEngine.PROGRESSION_PATTERNS`: genre → mood → roman-numeral pattern. -/
def PROGRESSION_PATTERNS : List (String × List (String × List String)) :=
  [("pop",
    [("happy", ["I", "V", "vi", "IV"]),
     ("sad", ["vi", "IV", "I", "V"]),
     ("dreamy", ["I", "vi", "IV", "V"]),
     ("energetic", ["I", "IV", "V", "I"])]),
   ("jazz",
    [("smooth", ["ii", "V", "I", "vi"]),
     ("dreamy", ["I", "vi", "ii", "V"]),
     ("energetic", ["I", "IV", "V", "I"])]),
   ("lofi",
    [("dreamy", ["I", "vi", "IV", "V"]),
     ("chill", ["vi", "IV", "I", "V"]),
     ("smooth", ["I", "V", "vi", "IV"])])]

/-- Table `MusicTheoryEngine.SCALE_NOTES`: scale notes per key. -/
def SCALE_NOTES : List (String × List String) :=
  [("C", ["C", "D", "E", "F", "G", "A", "B"]),
   ("D", ["D", "E", "F#", "G", "A", "B", "C#"]),
   ("E", ["E", "F#", "G#", "A", "B", "C#", "D#"]),
   ("F", ["F", "G", "A", "Bb", "C", "D", "E"]),
   ("G", ["G", "A", "B", "C", "D", "E", "F#"]),
   ("A", ["A", "B", "C#", "D", "E", "F#", "G#"]),
   ("B", ["B", "C#", "D#", "E", "F#", "G#", "A#"]),
   ("Am", ["A", "B", "C", "D", "E", "F", "G"]),
   ("Bm", ["B", "C#", "D", "E", "F#", "G", "A"]),
   ("Cm", ["C", "D", "Eb", "F", "G", "Ab", "Bb"]),
   ("Dm", ["D", "E", "F", "G", "A", "Bb", "C"]),
   ("Em", ["E", "F#", "G", "A", "B", "C", "D"]),
   ("F#m", ["F#", "G#", "A", "B", "C#", "D", "E"]),
   ("Gm", ["G", "A", "Bb", "C", "D", "Eb", "F"])]

/-- The `roman_to_index` dictionary inside `get_chord_progression`. -/
def roman_to_index : List (String × Nat) :=
  [("I", 0), ("ii", 1), ("iii", 2), ("IV", 3), ("V", 4), ("vi", 5), ("vii", 6)]

/-- Chord-set selection in `get_chord_progression`: the key's major table entry,
else its minor table entry, else the C-major chord set. -/
def chord_set_for (key : String) : List String :=
  match MAJOR_SCALE_CHORDS.lookup key with
  | some cs => cs
  | none =>
    match MINOR_SCALE_CHORDS.lookup key with
    | some cs => cs
    | none => (MAJOR_SCALE_CHORDS.lookup "C").getD []

/-- Pattern selection in `get_chord_progression`:
`PROGRESSION_PATTERNS.get(genre, {}).get(mood)`, with the default pattern
when the lookup misses or yields a falsy (empty) pattern. -/
def pattern_for (genre mood : String) : List String :=
  match ((PROGRESSION_PATTERNS.lookup genre).getD []).lookup mood with
  | some p => if p = [] then ["I", "vi", "IV", "V"] else p
  | none => ["I", "vi", "IV", "V"]

/-- Function `MusicTheoryEngine.get_chord_progression(mood, key, genre)`: converts the
selected roman-numeral pattern to chords of the selected chord set; an
unrecognized roman numeral falls back to the chord at index 0. -/
def get_chord_progression (mood key genre : String) : List String :=
  let chord_set := chord_set_for key
  let pattern := pattern_for genre mood
  pattern.map (fun roman =>
    match roman_to_index.lookup roman with
    | some idx => chord_set.getD idx ""
    | none => chord_set.getD 0 "")

/-- Key/scale selection in `generate_melody`: key is the first chord (default
`"C"`) with all `'m'` characters removed and then `"dim"` substrings removed,
exactly as `first_chord.replace('m', '').replace('dim', '')` computes. -/
def scale_notes_for (chords : List String) : List String :=
  let first_chord := chords.headD "C"
  let key := (first_chord.replace "m" "").replace "dim" ""
  (SCALE_NOTES.lookup key).getD ((SCALE_NOTES.lookup "C").getD [])

/-- The per-chord body of the loop in `generate_melody`: four notes walked
upward from the chord root's index in the scale when the stripped root is a
scale note, else the first four scale notes (both indexings taken modulo the
scale length, as in the source). -/
def melody_notes_for_chord (scale_notes : List String) (chord : String) :
    List String :=
  let notes_per_chord := 4
  let root := (chord.replace "m" "").replace "dim" ""
  let _chord_tones := [root]
  if root ∈ scale_notes then
    let root_index := scale_notes.indexOf root
    (List.range notes_per_chord).map (fun i =>
      scale_notes.getD ((root_index + i) % scale_notes.length) "")
  else
    (List.range notes_per_chord).map (fun i =>
      scale_notes.getD (i % scale_notes.length) "")

/-- Function `MusicTheoryEngine.generate_melody(chords, mood, rhythm_style)`: the scale
is chosen from the first chord, then each chord contributes the notes of
`melody_notes_for_chord`. -/
def generate_melody (chords : List String) (mood rhythm_style : String) :
    List String :=
  let scale_notes := scale_notes_for chords
  chords.flatMap (melody_notes_for_chord scale_notes)

end MusicTheory

namespace MusicTheory

/-- A looked-up value is among the association list's values. -/
theorem lookup_mem_values {α β : Type} [BEq α] (l : List (α × β)) (k : α)
    (v : β) (h : l.lookup k = some v) : v ∈ l.map Prod.snd := by
  induction l with
  | nil => simp [List.lookup] at h
  | cons hd tl ih =>
    rw [List.lookup] at h
    by_cases hk : (k == hd.1) = true
    · simp [hk] at h
      simp [h]
    · simp [hk] at h
      simp [ih h]

/-- Every chord set selected by `chord_set_for` has exactly 7 chords. -/
theorem chord_set_for_length (key : String) : (chord_set_for key).length = 7 := by
  have hmaj : ∀ cs ∈ MAJOR_SCALE_CHORDS.map Prod.snd, cs.length = 7 := by decide
  have hmin : ∀ cs ∈ MINOR_SCALE_CHORDS.map Prod.snd, cs.length = 7 := by decide
  unfold chord_set_for
  rcases h1 : MAJOR_SCALE_CHORDS.lookup key with _ | cs1
  · rcases h2 : MINOR_SCALE_CHORDS.lookup key with _ | cs2
    · simp only [h1, h2]
      decide
    · simp only [h1, h2]
      exact hmin _ (lookup_mem_values _ _ _ h2)
  · simp only [h1]
    exact hmaj _ (lookup_mem_values _ _ _ h1)

/-- Every pattern selected by `pattern_for` has exactly 4 roman numerals. -/
theorem pattern_for_length (genre mood : String) :
    (pattern_for genre mood).length = 4 := by
  have hpat : ∀ tbl ∈ PROGRESSION_PATTERNS.map Prod.snd,
      ∀ p ∈ tbl.map Prod.snd, (if p = [] then ["I", "vi", "IV", "V"] else p).length = 4 := by
    decide
  unfold pattern_for
  rcases hg : PROGRESSION_PATTERNS.lookup genre with _ | tbl
  · simp only [hg, Option.getD_none, List.lookup]
    decide
  · have htbl := lookup_mem_values _ _ _ hg
    rcases hm : tbl.lookup mood with _ | p
    · simp only [hg, Option.getD_some, hm]
      decide
    · simp only [hg, Option.getD_some, hm]
      exact hpat _ htbl _ (lookup_mem_values _ _ _ hm)

/-- Every scale selected by `scale_notes_for` has exactly 7 notes. -/
theorem scale_notes_for_length (chords : List String) :
    (scale_notes_for chords).length = 7 := by
  have hsc : ∀ sc ∈ SCALE_NOTES.map Prod.snd, sc.length = 7 := by decide
  unfold scale_notes_for
  rcases h : SCALE_NOTES.lookup
      (((chords.headD "C").replace "m" "").replace "dim" "") with _ | sc
  · simp only [h, Option.getD_none]
    decide
  · simp only [h, Option.getD_some]
    exact hsc _ (lookup_mem_values _ _ _ h)


/-- Every roman-numeral index in the `roman_to_index` dictionary is below 7. -/
theorem roman_index_lt (roman : String) (idx : Nat)
    (h : roman_to_index.lookup roman = some idx) : idx < 7 := by
  have hall : ∀ i ∈ roman_to_index.map Prod.snd, i < 7 := by decide
  exact hall _ (lookup_mem_values _ _ _ h)

/-- Each per-chord melody block has exactly 4 notes. -/
theorem melody_notes_for_chord_length (scale_notes : List String)
    (chord : String) : (melody_notes_for_chord scale_notes chord).length = 4 := by
  simp only [melody_notes_for_chord]
  split <;> simp

/-- Each note of a per-chord melody block belongs to the (non-empty) scale. -/
theorem melody_notes_for_chord_mem (scale_notes : List String) (chord : String)
    (hpos : 0 < scale_notes.length) :
    ∀ n ∈ melody_notes_for_chord scale_notes chord, n ∈ scale_notes := by
  simp only [melody_notes_for_chord]
  split <;>
  · intro n hn
    simp only [List.mem_map, List.mem_range] at hn
    obtain ⟨i, _, hni⟩ := hn
    rw [List.getD_eq_getElem _ _ (Nat.mod_lt _ hpos)] at hni
    rw [← hni]
    exact List.getElem_mem _

/-- C8: for every mood, key, and genre, `get_chord_progression` terminates
without raising and returns exactly 4 chord names, each drawn from the
diatonic chord table selected for the key; when the key is in neither the
major nor the minor table the chord set falls back to the C-major chords, and
when the genre/mood pair has no pattern the default pattern
`["I", "vi", "IV", "V"]` is used. -/
theorem get_chord_progression_spec (mood key genre : String) :
    (get_chord_progression mood key genre).length = 4 ∧
    (∀ c ∈ get_chord_progression mood key genre, c ∈ chord_set_for key) ∧
    (MAJOR_SCALE_CHORDS.lookup key = none → MINOR_SCALE_CHORDS.lookup key = none →
      chord_set_for key = ["C", "Dm", "Em", "F", "G", "Am", "Bdim"]) ∧
    (((PROGRESSION_PATTERNS.lookup genre).getD []).lookup mood = none →
      pattern_for genre mood = ["I", "vi", "IV", "V"]) := by
  refine ⟨?_, ?_, ?_, ?_⟩
  · simp only [get_chord_progression]
    simp [pattern_for_length]
  · intro c hc
    simp only [get_chord_progression, List.mem_map] at hc
    obtain ⟨roman, _, hcr⟩ := hc
    have h7 := chord_set_for_length key
    rcases hl : roman_to_index.lookup roman with _ | idx
    · simp only [hl] at hcr
      have h0 : (0 : Nat) < (chord_set_for key).length := by omega
      rw [List.getD_eq_getElem _ _ h0] at hcr
      rw [← hcr]
      exact List.getElem_mem _
    · simp only [hl] at hcr
      have hi : idx < (chord_set_for key).length := by
        have := roman_index_lt roman idx hl
        omega
      rw [List.getD_eq_getElem _ _ hi] at hcr
      rw [← hcr]
      exact List.getElem_mem _
  · intro h1 h2
    unfold chord_set_for
    simp only [h1, h2]
    decide
  · intro h
    unfold pattern_for
    simp only [h]

/-- C8 witness: the theorem instantiated at a concrete mood, key and genre. -/
theorem get_chord_progression_spec_witness :
    (get_chord_progression "happy" "H" "metal").length = 4 ∧
    (MAJOR_SCALE_CHORDS.lookup "H" = none → MINOR_SCALE_CHORDS.lookup "H" = none →
      chord_set_for "H" = ["C", "Dm", "Em", "F", "G", "Am", "Bdim"]) :=
  ⟨(get_chord_progression_spec "happy" "H" "metal").1,
   (get_chord_progression_spec "happy" "H" "metal").2.2.1⟩

/-- C9: for every list of chord strings, `generate_melody` returns exactly
4 notes per input chord, with every returned note a member of the selected
scale; the empty chord list yields the empty melody without raising. -/
theorem generate_melody_spec (chords : List String)
    (mood rhythm_style : String) :
    (generate_melody chords mood rhythm_style).length = 4 * chords.length ∧
    (∀ n ∈ generate_melody chords mood rhythm_style, n ∈ scale_notes_for chords) ∧
    generate_melody [] mood rhythm_style = [] := by
  refine ⟨?_, ?_, rfl⟩
  · simp only [generate_melody]
    simp [List.length_flatMap, melody_notes_for_chord_length,
      Function.comp_def, Nat.mul_comm]
  · intro n hn
    simp only [generate_melody, List.mem_flatMap] at hn
    obtain ⟨chord, _, hmem⟩ := hn
    have h7 := scale_notes_for_length chords
    exact melody_notes_for_chord_mem _ chord (by omega) n hmem

/-- C9 witness: the theorem instantiated at a concrete chord list. -/
theorem generate_melody_spec_witness :
    (generate_melody ["Am", "F", "C", "G"] "sad" "smooth").length = 4 * 4 ∧
    generate_melody [] "sad" "smooth" = [] :=
  ⟨(generate_melody_spec ["Am", "F", "C", "G"] "sad" "smooth").1,
   (generate_melody_spec ["Am", "F", "C", "G"] "sad" "smooth").2.2⟩

end MusicTheory

namespace DAWDriver

/-- Dictionary `note_map` of `DAWDriverEngine.note_to_midi` (middle octave). -/
def note_map : List (String × Int) :=
  [("C", 60), ("C#", 61), ("Db", 61),
   ("D", 62), ("D#", 63), ("Eb", 63),
   ("E", 64),
   ("F", 65), ("F#", 66), ("Gb", 66),
   ("G", 67), ("G#", 68), ("Ab", 68),
   ("A", 69), ("A#", 70), ("Bb", 70),
   ("B", 71)]

/-- Code points that the Unicode 14.0.0 character database of the Python
runtime classifies as decimal digits: zero-aligned runs of ten, so the value
of `int(c)` for a character in a run is its offset from the run start. -/
def decimal_digit_ranges : List (Nat × Nat) :=
  [(0x30, 0x39), (0x660, 0x669), (0x6F0, 0x6F9), (0x7C0, 0x7C9), (0x966, 0x96F),
   (0x9E6, 0x9EF), (0xA66, 0xA6F), (0xAE6, 0xAEF), (0xB66, 0xB6F), (0xBE6, 0xBEF),
   (0xC66, 0xC6F), (0xCE6, 0xCEF), (0xD66, 0xD6F), (0xDE6, 0xDEF), (0xE50, 0xE59),
   (0xED0, 0xED9), (0xF20, 0xF29), (0x1040, 0x1049), (0x1090, 0x1099), (0x17E0, 0x17E9),
   (0x1810, 0x1819), (0x1946, 0x194F), (0x19D0, 0x19D9), (0x1A80, 0x1A89), (0x1A90, 0x1A99),
   (0x1B50, 0x1B59), (0x1BB0, 0x1BB9), (0x1C40, 0x1C49), (0x1C50, 0x1C59), (0xA620, 0xA629),
   (0xA8D0, 0xA8D9), (0xA900, 0xA909), (0xA9D0, 0xA9D9), (0xA9F0, 0xA9F9), (0xAA50, 0xAA59),
   (0xABF0, 0xABF9), (0xFF10, 0xFF19), (0x104A0, 0x104A9), (0x10D30, 0x10D39), (0x11066, 0x1106F),
   (0x110F0, 0x110F9), (0x11136, 0x1113F), (0x111D0, 0x111D9), (0x112F0, 0x112F9), (0x11450, 0x11459),
   (0x114D0, 0x114D9), (0x11650, 0x11659), (0x116C0, 0x116C9), (0x11730, 0x11739), (0x118E0, 0x118E9),
   (0x11950, 0x11959), (0x11C50, 0x11C59), (0x11D50, 0x11D59), (0x11DA0, 0x11DA9), (0x16A60, 0x16A69),
   (0x16AC0, 0x16AC9), (0x16B50, 0x16B59), (0x1D7CE, 0x1D7D7), (0x1D7D8, 0x1D7E1), (0x1D7E2, 0x1D7EB),
   (0x1D7EC, 0x1D7F5), (0x1D7F6, 0x1D7FF), (0x1E140, 0x1E149), (0x1E2F0, 0x1E2F9), (0x1E950, 0x1E959),
   (0x1FBF0, 0x1FBF9)]

/-- Code points that satisfy the single-character `str.isdigit` of the Python
runtime (Unicode 14.0.0, Numeric_Type Digit) but are not decimal digits:
`int(c)` raises `ValueError` on every character in these runs, for example
the superscript two at 0xB2. -/
def non_decimal_digit_ranges : List (Nat × Nat) :=
  [(0xB2, 0xB3), (0xB9, 0xB9), (0x1369, 0x1371), (0x19DA, 0x19DA), (0x2070, 0x2070),
   (0x2074, 0x2079), (0x2080, 0x2089), (0x2460, 0x2468), (0x2474, 0x247C), (0x2488, 0x2490),
   (0x24EA, 0x24EA), (0x24F5, 0x24FD), (0x24FF, 0x24FF), (0x2776, 0x277E), (0x2780, 0x2788),
   (0x278A, 0x2792), (0x10A40, 0x10A43), (0x10E60, 0x10E68), (0x11052, 0x1105A), (0x1F100, 0x1F10A)]

/-- The value `int(c)` returns for a single character `c`: its decimal value
when `c` is a decimal digit, else `none` standing for the `ValueError` the
Python call raises. -/
def int_of_digit_char (c : Char) : Option Nat :=
  (decimal_digit_ranges.find? (fun r => r.1 ≤ c.toNat && c.toNat ≤ r.2)).map
    (fun r => c.toNat - r.1)

/-- The single-character `str.isdigit` of the Python runtime: true exactly on
decimal digits and on the Numeric_Type Digit characters, which include
non-decimal digits such as superscripts, subscripts and circled digits. -/
def str_isdigit (c : Char) : Bool :=
  (int_of_digit_char c).isSome ||
    non_decimal_digit_ranges.any (fun r => r.1 ≤ c.toNat && c.toNat ≤ r.2)

/-- Predicate for the raising inputs of `DAWDriverEngine.note_to_midi`: the
Python code raises `IndexError` at `note[-1]` on the empty name, and
`ValueError` at `int(note[-1])` when the last character is a digit by
`str.isdigit` but not a decimal digit. -/
def note_to_midi_raises (note : String) : Bool :=
  match note.data.getLast? with
  | some c => str_isdigit c && !(int_of_digit_char c).isSome
  | none => true

/-- Function `DAWDriverEngine.note_to_midi(note)`: if the last character
satisfies `str.isdigit`, apply the octave formula
`base_midi + (octave - 4) * 12` with `octave = int(note[-1])` and the base
looked up from the name without its last character (default 60); otherwise
look the whole name up (default 60). `none` models the raising inputs of
`note_to_midi_raises`: the empty name (`IndexError`) and a final character
that is a non-decimal digit (`ValueError` inside the digit branch). -/
def note_to_midi (note : String) : Option Int :=
  match note.data.getLast? with
  | some c =>
    if str_isdigit c then
      match int_of_digit_char c with
      | some octave =>
        let note_name := String.mk note.data.dropLast
        let base_midi := (note_map.lookup note_name).getD 60
        some (base_midi + ((octave : Int) - 4) * 12)
      | none => none
    else some ((note_map.lookup note).getD 60)
  | none => none

/-- The chord-name parse at the top of `chord_to_midi_notes`: the root is the
first character, extended by a second character when it is `'#'` or `'b'`;
the rest of the string is the chord type. The empty chord parses to two empty
strings; `chord_to_midi_notes` never reaches this case, since it models the
`IndexError` that `chord[0]` raises on the empty chord as `none` before
parsing. -/
def parse_chord (chord : String) : String × String :=
  match chord.data with
  | [] => ("", "")
  | c0 :: rest =>
    match rest with
    | c1 :: rest2 =>
      if c1 = '#' ∨ c1 = 'b' then (String.mk [c0, c1], String.mk rest2)
      else (String.mk [c0], String.mk rest)
    | [] => (String.mk [c0], "")

/-- The chord-type dispatch in `chord_to_midi_notes` over the
`chord_intervals` dictionary; any unrecognized chord type defaults to the
major triad. -/
def intervals_for (chord_type : String) : List Int :=
  if chord_type = "" then [0, 4, 7]
  else if chord_type = "m" then [0, 3, 7]
  else if chord_type = "dim" then [0, 3, 6]
  else if chord_type = "aug" then [0, 4, 8]
  else if chord_type = "7" then [0, 4, 7, 10]
  else if chord_type = "maj7" then [0, 4, 7, 11]
  else if chord_type = "m7" then [0, 3, 7, 10]
  else [0, 4, 7]

/-- Function `DAWDriverEngine.chord_to_midi_notes(chord)`: the intervals of
the quality shifted by the MIDI number of the root; `none` models the
`IndexError` on the empty chord and the `ValueError` that `note_to_midi`
propagates. -/
def chord_to_midi_notes (chord : String) : Option (List Int) :=
  match chord.data with
  | [] => none
  | _ :: _ =>
    let root_note := (parse_chord chord).1
    let chord_type := (parse_chord chord).2
    let intervals := intervals_for chord_type
    (note_to_midi root_note).map (fun root_midi =>
      intervals.map (fun interval => root_midi + interval))

/-- Any interval list produced by `intervals_for` is one of the seven entries
of the `chord_intervals` dictionary. -/
theorem intervals_for_cases (chord_type : String) :
    intervals_for chord_type ∈
      [[0, 4, 7], [0, 3, 7], [0, 3, 6], [0, 4, 8],
       ([0, 4, 7, 10] : List Int), [0, 4, 7, 11], [0, 3, 7, 10]] := by
  unfold intervals_for
  split_ifs <;> simp

/-- On a non-raising name, `note_to_midi` returns a value. -/
theorem note_to_midi_isSome (note : String)
    (h : note_to_midi_raises note = false) :
    ∃ m, note_to_midi note = some m := by
  unfold note_to_midi_raises at h
  unfold note_to_midi
  rcases hl : note.data.getLast? with _ | c
  · rw [hl] at h
    exact absurd h (by simp)
  · rw [hl] at h
    dsimp only at h ⊢
    by_cases hd : str_isdigit c = true
    · rw [hd] at h
      simp only [Bool.true_and] at h
      rcases hv : int_of_digit_char c with _ | v
      · rw [hv] at h
        simp at h
      · rw [if_pos hd]
        exact ⟨_, rfl⟩
    · rw [if_neg hd]
      exact ⟨_, rfl⟩

/-- On a non-empty chord, `chord_to_midi_notes` maps the quality intervals
over the MIDI conversion of the parsed root. -/
theorem chord_to_midi_notes_eq (chord : String) (h : chord ≠ "") :
    chord_to_midi_notes chord =
      (note_to_midi (parse_chord chord).1).map (fun root_midi =>
        (intervals_for (parse_chord chord).2).map
          (fun interval => root_midi + interval)) := by
  obtain ⟨cs⟩ := chord
  cases cs with
  | nil => exact absurd (by decide) h
  | cons c rest => rfl

/-- C10, amended: for every non-empty chord whose parsed root does not end in
a non-decimal Unicode digit (on which the code raises ValueError),
`chord_to_midi_notes` returns a strictly increasing list of 3 or 4 integer
MIDI note numbers obtained by adding the intervals of the quality to the MIDI
number of the root; unrecognized chord qualities are treated as a major triad
`[0, 4, 7]`; `note_to_midi` maps unknown names not ending in a digit to 60,
applies `base + (octave - 4) * 12` with `octave = int(note[-1])` for names
ending in a decimal digit, and raises for names ending in a non-decimal
digit. -/
theorem chord_to_midi_notes_spec (chord : String) (h : chord ≠ "")
    (hsafe : note_to_midi_raises (parse_chord chord).1 = false) :
    (∃ notes, chord_to_midi_notes chord = some notes ∧
      List.Chain' (· < ·) notes ∧
      (notes.length = 3 ∨ notes.length = 4) ∧
      ∃ root_midi, note_to_midi (parse_chord chord).1 = some root_midi ∧
        notes = (intervals_for (parse_chord chord).2).map
          (fun interval => root_midi + interval)) ∧
    (∀ t : String,
      t ∉ (["", "m", "dim", "aug", "7", "maj7", "m7"] : List String) →
      intervals_for t = [0, 4, 7]) ∧
    (∀ note : String, ∀ c : Char, note.data.getLast? = some c →
      str_isdigit c = false → note_map.lookup note = none →
      note_to_midi note = some 60) ∧
    (∀ note : String, ∀ c : Char, ∀ v : Nat, note.data.getLast? = some c →
      int_of_digit_char c = some v →
      note_to_midi note =
        some ((note_map.lookup (String.mk note.data.dropLast)).getD 60 +
          ((v : Int) - 4) * 12)) ∧
    (∀ note : String, ∀ c : Char, note.data.getLast? = some c →
      str_isdigit c = true → int_of_digit_char c = none →
      note_to_midi note = none) := by
  refine ⟨?_, ?_, ?_, ?_, ?_⟩
  · obtain ⟨m, hm⟩ := note_to_midi_isSome ((parse_chord chord).1) hsafe
    have heq := chord_to_midi_notes_eq chord h
    rw [hm, Option.map_some'] at heq
    refine ⟨_, heq, ?_, ?_, m, hm, rfl⟩
    · have hc := intervals_for_cases (parse_chord chord).2
      simp only [List.mem_cons, List.not_mem_nil, or_false] at hc
      rcases hc with hi | hi | hi | hi | hi | hi | hi <;> rw [hi] <;>
        simp only [List.map_cons, List.map_nil, List.chain'_cons,
          List.chain'_singleton, and_true] <;>
        omega
    · have hc := intervals_for_cases (parse_chord chord).2
      simp only [List.mem_cons, List.not_mem_nil, or_false] at hc
      rw [List.length_map]
      rcases hc with hi | hi | hi | hi | hi | hi | hi <;> rw [hi] <;> simp
  · intro t ht
    simp only [List.mem_cons, List.not_mem_nil, or_false, not_or] at ht
    obtain ⟨h1, h2, h3, h4, h5, h6, h7⟩ := ht
    unfold intervals_for
    rw [if_neg h1, if_neg h2, if_neg h3, if_neg h4, if_neg h5, if_neg h6,
      if_neg h7]
  · intro note c hlast hd hnone
    unfold note_to_midi
    rw [hlast]
    dsimp only
    rw [hd]
    simp only [Bool.false_eq_true, if_false]
    rw [hnone]
    rfl
  · intro note c v hlast hv
    have hd : str_isdigit c = true := by
      unfold str_isdigit
      rw [hv]
      rfl
    unfold note_to_midi
    rw [hlast]
    dsimp only
    rw [if_pos hd, hv]
  · intro note c hlast hd hv
    unfold note_to_midi
    rw [hlast]
    dsimp only
    rw [if_pos hd, hv]

/-- C10 counterexample: on the non-empty chord consisting of the superscript
two (code point 0xB2), whose only character satisfies `str.isdigit` but is
not a decimal digit, the Python code raises `ValueError` at `int(note[-1])`
instead of returning a list of MIDI notes — refuting the original claim that
every non-empty chord yields a strictly increasing 3- or 4-element list. -/
theorem chord_to_midi_notes_claim_counterexample :
    ("²" : String) ≠ "" ∧ chord_to_midi_notes "²" = none := by
  constructor
  · decide
  · decide

/-- C10 witness: the amended theorem instantiated at the chord name of the
A-minor triad, plus the octave formula evaluated at the Arabic-Indic digit
three, on which int returns 3 and the code yields 48. -/
theorem chord_to_midi_notes_spec_witness :
    (∃ notes, chord_to_midi_notes "Am" = some notes ∧
      List.Chain' (· < ·) notes ∧
      (notes.length = 3 ∨ notes.length = 4)) ∧
    note_to_midi "٣" = some 48 := by
  have hmain := chord_to_midi_notes_spec "Am" (by decide) (by decide)
  obtain ⟨notes, h1, h2, h3, _⟩ := hmain.1
  refine ⟨⟨notes, h1, h2, h3⟩, ?_⟩
  have ho := hmain.2.2.2.1 "٣" '٣' 3 (by decide) (by decide)
  rw [ho]
  decide

end DAWDriver

namespace Tracing

/-- Modelled from the spec: `TracingSettings` (spec §3) — the implementation
(`mcp_agent.config.OpenTelemetrySettings`) is not part of the sources; an
immutable configuration value with an enabled flag, a logical service name
and a list of exporter kinds. -/
structure TracingSettings where
  enabled : Bool
  serviceName : String
  exporterKinds : List String
deriving DecidableEq, Repr

/-- Modelled from the spec: `Resource` (spec §3) — identifying metadata built
once at configure time from the service name and session id. -/
structure Resource where
  serviceName : String
  sessionId : String
deriving DecidableEq, Repr

/-- Modelled from the spec: `Provider` (spec §3) — a resource plus exporter
pipeline, the unit that mints tracers. `pid` stands for the object identity
that the tests compare with `is` / `id(...)`; `closed` records that
`shutdown` has made the provider inert. -/
structure Provider where
  pid : Nat
  resource : Resource
  exporters : List String
  closed : Bool
deriving DecidableEq, Repr

/-- Modelled from the spec: `Tracer` (spec §3) — a named handle with a
back-reference to its provider; `none` is the no-op provider used when no
ambient default was ever registered. -/
structure Tracer where
  name : String
  provider : Option Provider
deriving DecidableEq, Repr

/-- Modelled from the spec: the whole-process state of the observability
subsystem — the `GlobalBootstrap` singleton (its two monotone flags, the
ambient default provider slot, and observation counters for the one-time
actions and shared-logger shutdowns, mirroring what the tests count with
mocks), a fresh-identity counter, and the per-instance `TracingConfig`
states (`insts i = none` means instance `i` is unconfigured). -/
structure ProcState where
  instrumentationDone : Bool
  defaultProviderSet : Bool
  defaultProvider : Option Provider
  patchedTargets : List String
  patchPassCount : Nat
  setDefaultCalls : Nat
  loggerShutdownCalls : Nat
  nextPid : Nat
  insts : Nat → Option Provider

/-- Modelled from the spec: the known third-party instrumentation targets
(spec §4.2; the tests patch the Anthropic and OpenAI instrumentors). -/
def knownTargets : List String := ["anthropic", "openai"]

/-- Modelled from the spec: process start — both flags false, no ambient
default, nothing patched, every instance unconfigured. -/
def initState : ProcState :=
  { instrumentationDone := false
    defaultProviderSet := false
    defaultProvider := none
    patchedTargets := []
    patchPassCount := 0
    setDefaultCalls := 0
    loggerShutdownCalls := 0
    nextPid := 0
    insts := fun _ => none }

/-- Modelled from the spec: `GlobalBootstrap.ensureInstrumentation` (spec
§4.2) — on the first-ever call patches every known target and flips the
monotone flag; afterwards a no-op. -/
def ensureInstrumentation (s : ProcState) : ProcState :=
  if s.instrumentationDone then s
  else
    { s with
      instrumentationDone := true
      patchedTargets := knownTargets
      patchPassCount := s.patchPassCount + 1 }

/-- Modelled from the spec: `GlobalBootstrap.ensureDefaultProvider` (spec
§4.2) — first writer wins; subsequent calls, even with a different
candidate, are no-ops. -/
def ensureDefaultProvider (s : ProcState) (candidate : Provider) : ProcState :=
  if s.defaultProviderSet then s
  else
    { s with
      defaultProviderSet := true
      defaultProvider := some candidate
      setDefaultCalls := s.setDefaultCalls + 1 }

/-- Modelled from the spec: `TracingConfig.configure(settings, sessionId)`
(spec §4.3) — requires `settings.enabled`; configuring an already-configured
instance is the `AlreadyConfigured` error (state unchanged, siblings and
flags unaffected); otherwise builds a fresh provider owned by this instance
and then runs the two idempotent global bootstrap actions. -/
def configure (s : ProcState) (i : Nat) (settings : TracingSettings)
    (sessionId : String) : ProcState :=
  if settings.enabled = false then s
  else if (s.insts i).isSome then s
  else
    let p : Provider :=
      { pid := s.nextPid
        resource := { serviceName := settings.serviceName, sessionId := sessionId }
        exporters := settings.exporterKinds
        closed := false }
    let s1 :=
      { s with
        insts := fun j => if j = i then some p else s.insts j
        nextPid := s.nextPid + 1 }
    ensureDefaultProvider (ensureInstrumentation s1) p

/-- Modelled from the spec: `TracingConfig.getTracer(name)` (spec §4.3) — a
tracer bound to this instance's own provider when configured, else bound to
the current ambient default (the no-op provider `none` if never registered);
total, so it never raises. -/
def getTracer (s : ProcState) (i : Nat) (name : String) : Tracer :=
  match s.insts i with
  | some p => { name := name, provider := some p }
  | none => { name := name, provider := s.defaultProvider }

/-- Modelled from the spec: `TracingConfig.shutdown()` (spec §4.3) — flushes
and releases only this instance's provider, leaving it present but inert
(`closed`); idempotent, never raises, never touches the global flags or the
ambient default slot. -/
def shutdownInst (s : ProcState) (i : Nat) : ProcState :=
  match s.insts i with
  | some p =>
    { s with
      insts := fun j => if j = i then some { p with closed := true } else s.insts j }
  | none => s

/-- Modelled from the spec: `CleanupCoordinator.cleanup(shutdownSharedLogger)`
(spec §4.5) — always disposes the instance-local tracing resources
(idempotently, via `shutdownInst`); only when `shutdownSharedLogger` is true
does it additionally shut the process-wide shared logging subsystem down,
exactly once per such call. -/
def cleanup (s : ProcState) (i : Nat) (shutdownSharedLogger : Bool) : ProcState :=
  let s1 := shutdownInst s i
  if shutdownSharedLogger then
    { s1 with loggerShutdownCalls := s1.loggerShutdownCalls + 1 }
  else s1

/-- Modelled from the spec: `AppContext` scope entry (spec §4.4) — with
tracing enabled, builds and configures this instance's `TracingConfig`;
with `enabled = false` the tracing slot is left absent. -/
def appEnter (s : ProcState) (i : Nat) (settings : TracingSettings)
    (sessionId : String) : ProcState :=
  if settings.enabled then configure s i settings sessionId else s

/-- Modelled from the spec: `AppContext` scope exit (spec §4.4) — always
disposes the owned `TracingConfig` via `shutdown`, then requests
`cleanup` with `shutdownSharedLogger` defaulting to `false`. -/
def appExit (s : ProcState) (i : Nat) : ProcState :=
  cleanup (shutdownInst s i) i false

/-- Modelled from the spec: the operations that mutate process state, used to
form arbitrary interleavings of instance lifecycles. -/
inductive Op where
  | configure (i : Nat) (settings : TracingSettings) (sessionId : String)
  | shutdown (i : Nat)
  | cleanup (i : Nat) (shutdownSharedLogger : Bool)
  | enter (i : Nat) (settings : TracingSettings) (sessionId : String)
  | leave (i : Nat)

/-- One step of the process: dispatch an operation. -/
def step (s : ProcState) : Op → ProcState
  | .configure i settings sid => configure s i settings sid
  | .shutdown i => shutdownInst s i
  | .cleanup i f => cleanup s i f
  | .enter i settings sid => appEnter s i settings sid
  | .leave i => appExit s i

/-- A whole execution: fold the operations over a starting state. -/
def run (s : ProcState) (ops : List Op) : ProcState := ops.foldl step s


/-- Lemma: `ensureInstrumentation` leaves every non-instrumentation field unchanged. -/
theorem ensureInstrumentation_frame (s : ProcState) :
    (ensureInstrumentation s).insts = s.insts ∧
    (ensureInstrumentation s).nextPid = s.nextPid ∧
    (ensureInstrumentation s).defaultProviderSet = s.defaultProviderSet ∧
    (ensureInstrumentation s).defaultProvider = s.defaultProvider ∧
    (ensureInstrumentation s).setDefaultCalls = s.setDefaultCalls ∧
    (ensureInstrumentation s).loggerShutdownCalls = s.loggerShutdownCalls := by
  unfold ensureInstrumentation
  split <;> simp

/-- Lemma: `ensureInstrumentation` always leaves the instrumentation flag set. -/
theorem ensureInstrumentation_done (s : ProcState) :
    (ensureInstrumentation s).instrumentationDone = true := by
  unfold ensureInstrumentation
  split <;> simp_all

/-- Lemma: `ensureDefaultProvider` leaves every non-default-provider field unchanged. -/
theorem ensureDefaultProvider_frame (s : ProcState) (p : Provider) :
    (ensureDefaultProvider s p).insts = s.insts ∧
    (ensureDefaultProvider s p).nextPid = s.nextPid ∧
    (ensureDefaultProvider s p).instrumentationDone = s.instrumentationDone ∧
    (ensureDefaultProvider s p).patchPassCount = s.patchPassCount ∧
    (ensureDefaultProvider s p).patchedTargets = s.patchedTargets ∧
    (ensureDefaultProvider s p).loggerShutdownCalls = s.loggerShutdownCalls := by
  unfold ensureDefaultProvider
  split <;> simp

/-- Lemma: `ensureDefaultProvider` always leaves the default-provider flag set. -/
theorem ensureDefaultProvider_set (s : ProcState) (p : Provider) :
    (ensureDefaultProvider s p).defaultProviderSet = true := by
  unfold ensureDefaultProvider
  split <;> simp_all

/-- The reachability invariant of the subsystem: the monotone flags agree
with the observation counters, provider identities are bounded by the
freshness counter, and distinct instances hold distinct provider identities. -/
def Inv (s : ProcState) : Prop :=
  (s.instrumentationDone = true →
    s.patchPassCount = 1 ∧ s.patchedTargets = knownTargets) ∧
  (s.instrumentationDone = false →
    s.patchPassCount = 0 ∧ s.patchedTargets = []) ∧
  (s.defaultProviderSet = true → s.setDefaultCalls = 1) ∧
  (s.defaultProviderSet = false →
    s.setDefaultCalls = 0 ∧ s.defaultProvider = none) ∧
  (∀ i p, s.insts i = some p → p.pid < s.nextPid) ∧
  (∀ i j p q, s.insts i = some p → s.insts j = some q → i ≠ j →
    p.pid ≠ q.pid)

/-- The initial process state satisfies the invariant. -/
theorem inv_init : Inv initState := by
  refine ⟨?_, ?_, ?_, ?_, ?_, ?_⟩ <;> simp [initState]

/-- A successful `configure` call, characterized field by field: it stores a
fresh provider in exactly the target instance, bumps the freshness counter,
leaves both global flags set, performs the instrumentation patch and the
default-provider registration only when their flag was still unset, and never
touches the shared-logger counter. -/
theorem configure_fields (s : ProcState) (i : Nat) (settings : TracingSettings)
    (sid : String) (hen : settings.enabled = true) (hno : s.insts i = none) :
    (configure s i settings sid).insts =
      (fun j => if j = i then
        some { pid := s.nextPid
               resource := { serviceName := settings.serviceName, sessionId := sid }
               exporters := settings.exporterKinds
               closed := false }
        else s.insts j) ∧
    (configure s i settings sid).nextPid = s.nextPid + 1 ∧
    (configure s i settings sid).instrumentationDone = true ∧
    (configure s i settings sid).defaultProviderSet = true ∧
    (configure s i settings sid).patchPassCount =
      (if s.instrumentationDone then s.patchPassCount else s.patchPassCount + 1) ∧
    (configure s i settings sid).patchedTargets =
      (if s.instrumentationDone then s.patchedTargets else knownTargets) ∧
    (configure s i settings sid).setDefaultCalls =
      (if s.defaultProviderSet then s.setDefaultCalls else s.setDefaultCalls + 1) ∧
    (configure s i settings sid).defaultProvider =
      (if s.defaultProviderSet then s.defaultProvider else
        some { pid := s.nextPid
               resource := { serviceName := settings.serviceName, sessionId := sid }
               exporters := settings.exporterKinds
               closed := false }) ∧
    (configure s i settings sid).loggerShutdownCalls = s.loggerShutdownCalls := by
  by_cases hI : s.instrumentationDone <;> by_cases hD : s.defaultProviderSet <;>
    simp [configure, ensureInstrumentation, ensureDefaultProvider, hen, hno,
      hI, hD]

/-- A `configure` call that violates its precondition (tracing disabled, or
the instance already configured — the `AlreadyConfigured` error) leaves the
whole process state unchanged. -/
theorem configure_error (s : ProcState) (i : Nat) (settings : TracingSettings)
    (sid : String) (h : settings.enabled = false ∨ (s.insts i).isSome = true) :
    configure s i settings sid = s := by
  rcases h with h | h
  · simp [configure, h]
  · simp [configure, h]

/-- Lemma: `shutdownInst` on an unconfigured instance is the identity. -/
theorem shutdownInst_none (s : ProcState) (i : Nat) (h : s.insts i = none) :
    shutdownInst s i = s := by
  simp [shutdownInst, h]

/-- Lemma: `shutdownInst` on a configured instance marks only the provider of that instance as closed. -/
theorem shutdownInst_some (s : ProcState) (i : Nat) (p : Provider)
    (h : s.insts i = some p) :
    shutdownInst s i =
      { s with
        insts := fun j =>
          if j = i then some { p with closed := true } else s.insts j } := by
  simp [shutdownInst, h]

/-- Lemma: `shutdownInst` leaves every field other than the instance table unchanged:
it never touches the global flags, the ambient default slot, the patch state,
the counters, or the freshness counter. -/
theorem shutdownInst_frame (s : ProcState) (i : Nat) :
    (shutdownInst s i).instrumentationDone = s.instrumentationDone ∧
    (shutdownInst s i).defaultProviderSet = s.defaultProviderSet ∧
    (shutdownInst s i).defaultProvider = s.defaultProvider ∧
    (shutdownInst s i).patchedTargets = s.patchedTargets ∧
    (shutdownInst s i).patchPassCount = s.patchPassCount ∧
    (shutdownInst s i).setDefaultCalls = s.setDefaultCalls ∧
    (shutdownInst s i).loggerShutdownCalls = s.loggerShutdownCalls ∧
    (shutdownInst s i).nextPid = s.nextPid := by
  unfold shutdownInst
  split <;> simp

/-- Lemma: `shutdownInst` acts pointwise on the instance table: the target slot gets
its provider marked closed, every other slot is untouched. -/
theorem shutdownInst_insts (s : ProcState) (i j : Nat) :
    (shutdownInst s i).insts j =
      if j = i then (s.insts i).map (fun p => { p with closed := true })
      else s.insts j := by
  by_cases hj : j = i
  · subst hj
    rcases h : s.insts j with _ | p
    · simp [shutdownInst, h]
    · simp [shutdownInst, h]
  · rcases h : s.insts i with _ | p
    · simp [shutdownInst, h, hj]
    · simp [shutdownInst, h, hj]

/-- Lemma: `configure` preserves the invariant. -/
theorem inv_configure (s : ProcState) (i : Nat) (settings : TracingSettings)
    (sid : String) (h : Inv s) : Inv (configure s i settings sid) := by
  obtain ⟨h1, h2, h3, h4, h5, h6⟩ := h
  by_cases hen : settings.enabled = true
  swap
  · rw [configure_error s i settings sid (Or.inl (by simpa using hen))]
    exact ⟨h1, h2, h3, h4, h5, h6⟩
  rcases hni : s.insts i with _ | q
  swap
  · rw [configure_error s i settings sid (Or.inr (by simp [hni]))]
    exact ⟨h1, h2, h3, h4, h5, h6⟩
  obtain ⟨f1, f2, f3, f4, f5, f6, f7, f8, f9⟩ :=
    configure_fields s i settings sid hen hni
  refine ⟨?_, ?_, ?_, ?_, ?_, ?_⟩
  · intro _
    rw [f5, f6]
    rcases hI : s.instrumentationDone with _ | _
    · have := h2 hI
      simp [hI, this.1]
    · simp only [hI, if_pos rfl]
      exact h1 hI
  · intro hcon
    rw [f3] at hcon
    exact absurd hcon (by simp)
  · intro _
    rw [f7]
    rcases hD : s.defaultProviderSet with _ | _
    · have := h4 hD
      simp [hD, this.1]
    · simp only [hD, if_pos rfl]
      exact h3 hD
  · intro hcon
    rw [f4] at hcon
    exact absurd hcon (by simp)
  · intro j q hq
    simp only [f1] at hq
    rw [f2]
    by_cases hj : j = i
    · rw [if_pos hj] at hq
      injection hq with hq
      rw [← hq]
      dsimp only
      omega
    · rw [if_neg hj] at hq
      have := h5 j q hq
      omega
  · intro j k q r hq hr hjk
    simp only [f1] at hq hr
    by_cases hj : j = i <;> by_cases hk : k = i
    · exact absurd (hj.trans hk.symm) hjk
    · rw [if_pos hj] at hq
      rw [if_neg hk] at hr
      injection hq with hq
      have := h5 k r hr
      rw [← hq]
      dsimp only
      omega
    · rw [if_neg hj] at hq
      rw [if_pos hk] at hr
      injection hr with hr
      have := h5 j q hq
      rw [← hr]
      dsimp only
      omega
    · rw [if_neg hj] at hq
      rw [if_neg hk] at hr
      exact h6 j k q r hq hr hjk

/-- Lemma: `shutdownInst` preserves the invariant. -/
theorem inv_shutdown (s : ProcState) (i : Nat) (h : Inv s) :
    Inv (shutdownInst s i) := by
  obtain ⟨h1, h2, h3, h4, h5, h6⟩ := h
  obtain ⟨g1, g2, g3, g4, g5, g6, g7, g8⟩ := shutdownInst_frame s i
  refine ⟨?_, ?_, ?_, ?_, ?_, ?_⟩
  · intro hd
    rw [g1] at hd
    rw [g4, g5]
    exact h1 hd
  · intro hd
    rw [g1] at hd
    rw [g4, g5]
    exact h2 hd
  · intro hd
    rw [g2] at hd
    rw [g6]
    exact h3 hd
  · intro hd
    rw [g2] at hd
    rw [g6, g3]
    exact h4 hd
  · intro j q hq
    rw [shutdownInst_insts] at hq
    rw [g8]
    by_cases hj : j = i
    · rw [if_pos hj] at hq
      rcases hp : s.insts i with _ | p
      · rw [hp] at hq
        simp at hq
      · rw [hp] at hq
        simp only [Option.map_some', Option.some_inj] at hq
        have := h5 i p hp
        rw [← hq]
        simpa using this
    · rw [if_neg hj] at hq
      exact h5 j q hq
  · intro j k q r hq hr hjk
    rw [shutdownInst_insts] at hq hr
    by_cases hj : j = i <;> by_cases hk : k = i
    · exact absurd (hj.trans hk.symm) hjk
    · rw [if_pos hj] at hq
      rw [if_neg hk] at hr
      rcases hp : s.insts i with _ | p
      · rw [hp] at hq
        simp at hq
      · rw [hp] at hq
        simp only [Option.map_some', Option.some_inj] at hq
        have := h6 i k p r hp hr (fun hik => hjk (hj.trans hik))
        rw [← hq]
        simpa using this
    · rw [if_neg hj] at hq
      rw [if_pos hk] at hr
      rcases hp : s.insts i with _ | p
      · rw [hp] at hr
        simp at hr
      · rw [hp] at hr
        simp only [Option.map_some', Option.some_inj] at hr
        have := h6 j i q p hq hp (fun hji => hjk (hji.trans hk.symm))
        rw [← hr]
        simpa using this
    · rw [if_neg hj] at hq
      rw [if_neg hk] at hr
      exact h6 j k q r hq hr hjk

/-- Lemma: `cleanup` preserves the invariant. -/
theorem inv_cleanup (s : ProcState) (i : Nat) (f : Bool) (h : Inv s) :
    Inv (cleanup s i f) := by
  unfold cleanup
  have hsh := inv_shutdown s i h
  split
  · exact hsh
  · exact hsh

/-- Every operation preserves the invariant. -/
theorem inv_step (s : ProcState) (op : Op) (h : Inv s) : Inv (step s op) := by
  cases op with
  | configure i settings sid => exact inv_configure s i settings sid h
  | shutdown i => exact inv_shutdown s i h
  | cleanup i f => exact inv_cleanup s i f h
  | enter i settings sid =>
    have hst : step s (Op.enter i settings sid) = appEnter s i settings sid := rfl
    rw [hst]
    unfold appEnter
    split
    · exact inv_configure s i settings sid h
    · exact h
  | leave i => exact inv_cleanup _ i false (inv_shutdown s i h)

/-- Every execution preserves the invariant. -/
theorem inv_run (s : ProcState) (ops : List Op) (h : Inv s) :
    Inv (run s ops) := by
  induction ops generalizing s with
  | nil => exact h
  | cons op rest ih => exact ih (step s op) (inv_step s op h)


/-- Lemma: `cleanup` only disposes the instance slot and (optionally) bumps the
shared-logger counter; every global tracing field is untouched. -/
theorem cleanup_frame (s : ProcState) (i : Nat) (f : Bool) :
    (cleanup s i f).instrumentationDone = s.instrumentationDone ∧
    (cleanup s i f).defaultProviderSet = s.defaultProviderSet ∧
    (cleanup s i f).defaultProvider = s.defaultProvider ∧
    (cleanup s i f).patchedTargets = s.patchedTargets ∧
    (cleanup s i f).patchPassCount = s.patchPassCount ∧
    (cleanup s i f).setDefaultCalls = s.setDefaultCalls ∧
    (cleanup s i f).nextPid = s.nextPid := by
  obtain ⟨g1, g2, g3, g4, g5, g6, g7, g8⟩ := shutdownInst_frame s i
  unfold cleanup
  split <;> simp [g1, g2, g3, g4, g5, g6, g8]

/-- Lemma: `cleanup` changes the instance table exactly as `shutdownInst` does. -/
theorem cleanup_insts (s : ProcState) (i : Nat) (f : Bool) (j : Nat) :
    (cleanup s i f).insts j = (shutdownInst s i).insts j := by
  unfold cleanup
  split <;> rfl

/-- With the shared-logger flag false, `cleanup` is exactly the
instance-local disposal. -/
theorem cleanup_false (s : ProcState) (i : Nat) :
    cleanup s i false = shutdownInst s i := by
  simp [cleanup]

/-- Once a global bootstrap flag is set, no operation resets it, repeats its
one-time action, or replaces the registered ambient default provider. -/
theorem step_flags (s : ProcState) (op : Op) :
    (s.instrumentationDone = true →
      (step s op).instrumentationDone = true ∧
      (step s op).patchPassCount = s.patchPassCount ∧
      (step s op).patchedTargets = s.patchedTargets) ∧
    (s.defaultProviderSet = true →
      (step s op).defaultProviderSet = true ∧
      (step s op).defaultProvider = s.defaultProvider ∧
      (step s op).setDefaultCalls = s.setDefaultCalls) := by
  have hconf : ∀ i settings sid,
      (s.instrumentationDone = true →
        (configure s i settings sid).instrumentationDone = true ∧
        (configure s i settings sid).patchPassCount = s.patchPassCount ∧
        (configure s i settings sid).patchedTargets = s.patchedTargets) ∧
      (s.defaultProviderSet = true →
        (configure s i settings sid).defaultProviderSet = true ∧
        (configure s i settings sid).defaultProvider = s.defaultProvider ∧
        (configure s i settings sid).setDefaultCalls = s.setDefaultCalls) := by
    intro i settings sid
    by_cases hen : settings.enabled = true
    · rcases hni : s.insts i with _ | q
      · obtain ⟨f1, f2, f3, f4, f5, f6, f7, f8, f9⟩ :=
          configure_fields s i settings sid hen hni
        constructor
        · intro hI
          rw [f3, f5, f6, if_pos hI, if_pos hI]
          exact ⟨rfl, rfl, rfl⟩
        · intro hD
          rw [f4, f7, f8, if_pos hD, if_pos hD]
          exact ⟨rfl, rfl, rfl⟩
      · rw [configure_error s i settings sid (Or.inr (by simp [hni]))]
        exact ⟨fun hI => ⟨hI, rfl, rfl⟩, fun hD => ⟨hD, rfl, rfl⟩⟩
    · rw [configure_error s i settings sid (Or.inl (by simpa using hen))]
      exact ⟨fun hI => ⟨hI, rfl, rfl⟩, fun hD => ⟨hD, rfl, rfl⟩⟩
  cases op with
  | configure i settings sid => exact hconf i settings sid
  | shutdown i =>
    obtain ⟨g1, g2, g3, g4, g5, g6, g7, g8⟩ := shutdownInst_frame s i
    exact ⟨fun hI => ⟨g1 ▸ hI, g5, g4⟩, fun hD => ⟨g2 ▸ hD, g3, g6⟩⟩
  | cleanup i f =>
    obtain ⟨c1, c2, c3, c4, c5, c6, c7⟩ := cleanup_frame s i f
    exact ⟨fun hI => ⟨c1 ▸ hI, c5, c4⟩, fun hD => ⟨c2 ▸ hD, c3, c6⟩⟩
  | enter i settings sid =>
    have hst : step s (Op.enter i settings sid) = appEnter s i settings sid := rfl
    rw [hst]
    unfold appEnter
    split
    · exact hconf i settings sid
    · exact ⟨fun hI => ⟨hI, rfl, rfl⟩, fun hD => ⟨hD, rfl, rfl⟩⟩
  | leave i =>
    have hst : step s (Op.leave i) = cleanup (shutdownInst s i) i false := rfl
    rw [hst]
    obtain ⟨g1, g2, g3, g4, g5, g6, g7, g8⟩ := shutdownInst_frame s i
    obtain ⟨c1, c2, c3, c4, c5, c6, c7⟩ := cleanup_frame (shutdownInst s i) i false
    constructor
    · intro hI
      rw [c1, c4, c5, g1, g4, g5]
      exact ⟨hI, rfl, rfl⟩
    · intro hD
      rw [c2, c3, c6, g2, g3, g6]
      exact ⟨hD, rfl, rfl⟩

/-- Two process states with equal fields are equal. -/
theorem procState_ext (a b : ProcState)
    (h1 : a.instrumentationDone = b.instrumentationDone)
    (h2 : a.defaultProviderSet = b.defaultProviderSet)
    (h3 : a.defaultProvider = b.defaultProvider)
    (h4 : a.patchedTargets = b.patchedTargets)
    (h5 : a.patchPassCount = b.patchPassCount)
    (h6 : a.setDefaultCalls = b.setDefaultCalls)
    (h7 : a.loggerShutdownCalls = b.loggerShutdownCalls)
    (h8 : a.nextPid = b.nextPid)
    (h9 : ∀ j, a.insts j = b.insts j) : a = b := by
  obtain ⟨a1, a2, a3, a4, a5, a6, a7, a8, a9⟩ := a
  obtain ⟨b1, b2, b3, b4, b5, b6, b7, b8, b9⟩ := b
  simp only at h1 h2 h3 h4 h5 h6 h7 h8 h9
  subst h1
  subst h2
  subst h3
  subst h4
  subst h5
  subst h6
  subst h7
  subst h8
  rw [funext h9]

/-- Lemma: `shutdownInst` is idempotent: a second shutdown of the same instance is a
no-op. -/
theorem shutdownInst_idem (s : ProcState) (i : Nat) :
    shutdownInst (shutdownInst s i) i = shutdownInst s i := by
  obtain ⟨g1, g2, g3, g4, g5, g6, g7, g8⟩ := shutdownInst_frame (shutdownInst s i) i
  apply procState_ext _ _ g1 g2 g3 g4 g5 g6 g7 g8
  intro j
  rw [shutdownInst_insts]
  by_cases hj : j = i
  · rw [if_pos hj, hj]
    rw [shutdownInst_insts, if_pos rfl]
    rcases s.insts i with _ | p
    · rfl
    · rfl
  · rw [if_neg hj]


/-- No operation moves a configured instance back to unconfigured. -/
theorem step_insts_isSome (s : ProcState) (op : Op) (i : Nat)
    (h : (s.insts i).isSome = true) :
    ((step s op).insts i).isSome = true := by
  have hconf : ∀ k settings sid,
      ((configure s k settings sid).insts i).isSome = true := by
    intro k settings sid
    by_cases hen : settings.enabled = true
    · rcases hnk : s.insts k with _ | q
      · obtain ⟨f1, _, _, _, _, _, _, _, _⟩ :=
          configure_fields s k settings sid hen hnk
        simp only [f1]
        by_cases hik : i = k
        · rw [if_pos hik]
          rfl
        · rw [if_neg hik]
          exact h
      · rw [configure_error s k settings sid (Or.inr (by simp [hnk]))]
        exact h
    · rw [configure_error s k settings sid (Or.inl (by simpa using hen))]
      exact h
  have hshut : ∀ (t : ProcState) (k : Nat), (t.insts i).isSome = true →
      ((shutdownInst t k).insts i).isSome = true := by
    intro t k ht
    rw [shutdownInst_insts]
    by_cases hik : i = k
    · rw [if_pos hik, ← hik]
      rw [Option.isSome_map']
      exact ht
    · rw [if_neg hik]
      exact ht
  cases op with
  | configure k settings sid => exact hconf k settings sid
  | shutdown k => exact hshut s k h
  | cleanup k f =>
    show ((cleanup s k f).insts i).isSome = true
    rw [cleanup_insts]
    exact hshut s k h
  | enter k settings sid =>
    show ((appEnter s k settings sid).insts i).isSome = true
    unfold appEnter
    split
    · exact hconf k settings sid
    · exact h
  | leave k =>
    show ((cleanup (shutdownInst s k) k false).insts i).isSome = true
    rw [cleanup_insts]
    exact hshut (shutdownInst s k) k (hshut s k h)

/-- Two instances configured one after the other, with distinct service
names, inside one process. -/
def twoAppScenario : ProcState :=
  run initState
    [Op.configure 0 { enabled := true, serviceName := "service1", exporterKinds := [] } "sidA",
     Op.configure 1 { enabled := true, serviceName := "service2", exporterKinds := [] } "sidB"]

/-- Three instances configured in one process with distinct service names. -/
def threeAppScenario : ProcState :=
  run initState
    [Op.configure 0 { enabled := true, serviceName := "service1", exporterKinds := [] } "sidA",
     Op.configure 1 { enabled := true, serviceName := "service2", exporterKinds := [] } "sidB",
     Op.configure 2 { enabled := true, serviceName := "service3", exporterKinds := [] } "sidC"]

/-- C1: auto-instrumentation patching happens at most once per process: the
first-ever successful configure patches every known third-party target, every
later operation performs no patching, and the process-wide flags flip
false-to-true at most once and then stay true. -/
theorem instrumentation_at_most_once :
    (∀ s op, s.instrumentationDone = true →
      (step s op).instrumentationDone = true ∧
      (step s op).patchPassCount = s.patchPassCount ∧
      (step s op).patchedTargets = s.patchedTargets) ∧
    (∀ s op, s.defaultProviderSet = true →
      (step s op).defaultProviderSet = true) ∧
    (∀ ops, (run initState ops).patchPassCount ≤ 1 ∧
      ((run initState ops).instrumentationDone = true ↔
        (run initState ops).patchPassCount = 1)) ∧
    (∀ s i settings sid, settings.enabled = true → s.insts i = none →
      s.instrumentationDone = false →
      (configure s i settings sid).instrumentationDone = true ∧
      (configure s i settings sid).patchedTargets = knownTargets ∧
      (configure s i settings sid).patchPassCount = s.patchPassCount + 1) := by
  refine ⟨?_, ?_, ?_, ?_⟩
  · intro s op hI
    exact (step_flags s op).1 hI
  · intro s op hD
    exact ((step_flags s op).2 hD).1
  · intro ops
    obtain ⟨h1, h2, _, _, _, _⟩ := inv_run initState ops inv_init
    rcases hI : (run initState ops).instrumentationDone with _ | _
    · obtain ⟨hc, _⟩ := h2 hI
      refine ⟨by omega, ?_, ?_⟩
      · intro hcon
        exact absurd hcon (by simp)
      · intro hcon
        exact absurd hcon (by omega)
    · obtain ⟨hc, _⟩ := h1 hI
      exact ⟨by omega, fun _ => hc, fun _ => rfl⟩
  · intro s i settings sid hen hni hI
    obtain ⟨f1, f2, f3, f4, f5, f6, f7, f8, f9⟩ :=
      configure_fields s i settings sid hen hni
    rw [f3, f5, f6, if_neg (by simp [hI]), if_neg (by simp [hI])]
    exact ⟨rfl, rfl, rfl⟩

/-- C1 witness: the first configure from the pristine initial state patches
all known targets, once. -/
theorem instrumentation_at_most_once_witness :
    (configure initState 0
        { enabled := true, serviceName := "svc", exporterKinds := [] }
        "sid").patchedTargets = knownTargets ∧
    (configure initState 0
        { enabled := true, serviceName := "svc", exporterKinds := [] }
        "sid").patchPassCount = 1 :=
  ⟨(instrumentation_at_most_once.2.2.2 initState 0
      { enabled := true, serviceName := "svc", exporterKinds := [] }
      "sid" rfl rfl rfl).2.1,
   (instrumentation_at_most_once.2.2.2 initState 0
      { enabled := true, serviceName := "svc", exporterKinds := [] }
      "sid" rfl rfl rfl).2.2⟩

/-- C2: registering the ambient default provider is first-writer-wins and
happens at most once: once the flag is set no operation changes the
registered provider or invokes the set-default action again; in the
two-instance scenario the default is the provider of instance A, the set-default
action ran exactly once, and the own tracer of instance B is still bound to
the distinct provider of B. -/
theorem default_provider_first_writer_wins :
    (∀ s op, s.defaultProviderSet = true →
      (step s op).defaultProviderSet = true ∧
      (step s op).defaultProvider = s.defaultProvider ∧
      (step s op).setDefaultCalls = s.setDefaultCalls) ∧
    (∀ ops, (run initState ops).setDefaultCalls ≤ 1) ∧
    (twoAppScenario.defaultProvider = twoAppScenario.insts 0 ∧
     (twoAppScenario.insts 0).map (fun p => p.resource.serviceName) =
       some "service1" ∧
     twoAppScenario.setDefaultCalls = 1 ∧
     (getTracer twoAppScenario 1 "t").provider = twoAppScenario.insts 1 ∧
     (twoAppScenario.insts 1).map (fun p => p.resource.serviceName) =
       some "service2" ∧
     twoAppScenario.insts 1 ≠ twoAppScenario.insts 0) := by
  refine ⟨?_, ?_, ?_⟩
  · intro s op hD
    exact (step_flags s op).2 hD
  · intro ops
    obtain ⟨_, _, h3, h4, _, _⟩ := inv_run initState ops inv_init
    rcases hD : (run initState ops).defaultProviderSet with _ | _
    · obtain ⟨hc, _⟩ := h4 hD
      omega
    · have hc := h3 hD
      omega
  · refine ⟨?_, ?_, ?_, ?_, ?_, ?_⟩ <;> decide

/-- C2 witness: the stability part applied to the concrete two-instance
state, where the flag is concretely true. -/
theorem default_provider_first_writer_wins_witness :
    (step twoAppScenario (Op.shutdown 0)).defaultProviderSet = true ∧
    (step twoAppScenario (Op.shutdown 0)).defaultProvider =
      twoAppScenario.defaultProvider :=
  ⟨(default_provider_first_writer_wins.1 twoAppScenario (Op.shutdown 0)
      (by decide)).1,
   (default_provider_first_writer_wins.1 twoAppScenario (Op.shutdown 0)
      (by decide)).2.1⟩


/-- C3: every `TracingConfig` starts unconfigured; a successful configure
populates exactly the targeted instance and leaves every sibling untouched;
in any reachable state two distinct instances never hold the same provider
object; and no operation moves a configured instance back to unconfigured. -/
theorem tracing_config_isolation :
    (∀ i, initState.insts i = none) ∧
    (∀ s i settings sid, settings.enabled = true → s.insts i = none →
      ((configure s i settings sid).insts i).isSome = true ∧
      ∀ j, j ≠ i → (configure s i settings sid).insts j = s.insts j) ∧
    (∀ ops i j p q, i ≠ j →
      (run initState ops).insts i = some p →
      (run initState ops).insts j = some q → p ≠ q) ∧
    (∀ s op i, (s.insts i).isSome = true →
      ((step s op).insts i).isSome = true) := by
  refine ⟨fun _ => rfl, ?_, ?_, step_insts_isSome⟩
  · intro s i settings sid hen hni
    obtain ⟨f1, _, _, _, _, _, _, _, _⟩ :=
      configure_fields s i settings sid hen hni
    constructor
    · simp only [f1, if_pos rfl]
      rfl
    · intro j hj
      simp only [f1, if_neg hj]
  · intro ops i j p q hij hp hq
    obtain ⟨_, _, _, _, _, h6⟩ := inv_run initState ops inv_init
    intro hpq
    exact h6 i j p q hp hq hij (by rw [hpq])

/-- C3 witness: configuring instance 0 from the initial state populates it
and leaves instance 1 unconfigured. -/
theorem tracing_config_isolation_witness :
    ((configure initState 0
        { enabled := true, serviceName := "svc", exporterKinds := [] }
        "sid").insts 0).isSome = true ∧
    (configure initState 0
        { enabled := true, serviceName := "svc", exporterKinds := [] }
        "sid").insts 1 = initState.insts 1 :=
  ⟨(tracing_config_isolation.2.1 initState 0
      { enabled := true, serviceName := "svc", exporterKinds := [] }
      "sid" rfl rfl).1,
   (tracing_config_isolation.2.1 initState 0
      { enabled := true, serviceName := "svc", exporterKinds := [] }
      "sid" rfl rfl).2 1 (by decide)⟩

/-- C4: configuring one instance never changes what any other instance
observes; a configured instance resource carries exactly its own settings
service name and session id; and in the concrete three-instance scenario all
three resources report their own distinct service names and the three
provider identities are pairwise distinct. -/
theorem resource_isolation :
    (∀ s A B settings sid, A ≠ B →
      (configure s B settings sid).insts A = s.insts A) ∧
    (∀ s i settings sid, settings.enabled = true → s.insts i = none →
      ((configure s i settings sid).insts i).map
          (fun p => (p.resource.serviceName, p.resource.sessionId)) =
        some (settings.serviceName, sid)) ∧
    ((threeAppScenario.insts 0).map (fun p => p.resource.serviceName) =
       some "service1" ∧
     (threeAppScenario.insts 1).map (fun p => p.resource.serviceName) =
       some "service2" ∧
     (threeAppScenario.insts 2).map (fun p => p.resource.serviceName) =
       some "service3" ∧
     threeAppScenario.insts 0 ≠ threeAppScenario.insts 1 ∧
     threeAppScenario.insts 0 ≠ threeAppScenario.insts 2 ∧
     threeAppScenario.insts 1 ≠ threeAppScenario.insts 2) := by
  refine ⟨?_, ?_, ?_⟩
  · intro s A B settings sid hAB
    by_cases hen : settings.enabled = true
    · rcases hnB : s.insts B with _ | q
      · obtain ⟨f1, _, _, _, _, _, _, _, _⟩ :=
          configure_fields s B settings sid hen hnB
        simp only [f1, if_neg hAB]
      · rw [configure_error s B settings sid (Or.inr (by simp [hnB]))]
    · rw [configure_error s B settings sid (Or.inl (by simpa using hen))]
  · intro s i settings sid hen hni
    obtain ⟨f1, _, _, _, _, _, _, _, _⟩ :=
      configure_fields s i settings sid hen hni
    simp [f1]
  · refine ⟨?_, ?_, ?_, ?_, ?_, ?_⟩ <;> decide

/-- C4 witness: configuring instance 1 does not change the state of instance 0,
and a configured instance reports its own settings. -/
theorem resource_isolation_witness :
    (configure initState 1
        { enabled := true, serviceName := "service2", exporterKinds := [] }
        "sidB").insts 0 = initState.insts 0 ∧
    ((configure initState 0
        { enabled := true, serviceName := "service1", exporterKinds := [] }
        "sidA").insts 0).map
        (fun p => (p.resource.serviceName, p.resource.sessionId)) =
      some ("service1", "sidA") :=
  ⟨resource_isolation.1 initState 0 1
      { enabled := true, serviceName := "service2", exporterKinds := [] }
      "sidB" (by decide),
   resource_isolation.2.1 initState 0
      { enabled := true, serviceName := "service1", exporterKinds := [] }
      "sidA" rfl rfl⟩

/-- C5: `getTracer` on a configured instance returns a tracer bound to the
own provider of that instance; on an unconfigured instance it returns, without
raising, a tracer bound to the current ambient default (the no-op `none`
when none was ever registered); and entering a scope with tracing disabled
leaves the tracing slot absent. -/
theorem get_tracer_spec :
    (∀ s i name p, s.insts i = some p →
      getTracer s i name = { name := name, provider := some p }) ∧
    (∀ s i name, s.insts i = none →
      getTracer s i name = { name := name, provider := s.defaultProvider }) ∧
    (∀ s i settings sid, settings.enabled = false →
      appEnter s i settings sid = s) ∧
    (∀ i settings sid name, settings.enabled = false →
      (appEnter initState i settings sid).insts i = none ∧
      getTracer (appEnter initState i settings sid) i name =
        { name := name, provider := none }) := by
  have hdis : ∀ s i settings sid, settings.enabled = false →
      appEnter s i settings sid = s := by
    intro s i settings sid h
    simp [appEnter, h]
  refine ⟨?_, ?_, hdis, ?_⟩
  · intro s i name p h
    simp [getTracer, h]
  · intro s i name h
    simp [getTracer, h]
  · intro i settings sid name h
    rw [hdis initState i settings sid h]
    exact ⟨rfl, rfl⟩

/-- C5 witness: on the pristine initial state, `getTracer` of an unconfigured
instance yields the no-op tracer, and a disabled enter leaves the slot
absent. -/
theorem get_tracer_spec_witness :
    getTracer initState 0 "t" = { name := "t", provider := none } ∧
    (appEnter initState 0
        { enabled := false, serviceName := "off", exporterKinds := [] }
        "sid").insts 0 = none :=
  ⟨get_tracer_spec.2.1 initState 0 "t" rfl,
   (get_tracer_spec.2.2.2 0
      { enabled := false, serviceName := "off", exporterKinds := [] }
      "sid" "t" rfl).1⟩

/-- C6: `cleanup` with the shared-logger flag false never shuts the shared
logging subsystem down, `cleanup` with the flag true shuts it down exactly
once per call, and `AppContext` teardown (whose flag defaults to false)
leaves the shared logging subsystem untouched. -/
theorem cleanup_logger_spec :
    (∀ s i, (cleanup s i false).loggerShutdownCalls = s.loggerShutdownCalls) ∧
    (∀ s i, (cleanup s i true).loggerShutdownCalls =
      s.loggerShutdownCalls + 1) ∧
    (∀ s i, (appExit s i).loggerShutdownCalls = s.loggerShutdownCalls) := by
  have hfalse : ∀ s i,
      (cleanup s i false).loggerShutdownCalls = s.loggerShutdownCalls := by
    intro s i
    rw [cleanup_false]
    exact (shutdownInst_frame s i).2.2.2.2.2.2.1
  refine ⟨hfalse, ?_, ?_⟩
  · intro s i
    have hlog := (shutdownInst_frame s i).2.2.2.2.2.2.1
    simp [cleanup, hlog]
  · intro s i
    show (cleanup (shutdownInst s i) i false).loggerShutdownCalls =
      s.loggerShutdownCalls
    rw [hfalse]
    exact (shutdownInst_frame s i).2.2.2.2.2.2.1

/-- C7: `shutdown` and `cleanup` are idempotent and never raise on
already-torn-down state: the model functions are total, and running either a
second time on the same instance is a no-op. -/
theorem shutdown_cleanup_idempotent :
    (∀ s i, shutdownInst (shutdownInst s i) i = shutdownInst s i) ∧
    (∀ s i, cleanup (cleanup s i false) i false = cleanup s i false) := by
  refine ⟨shutdownInst_idem, ?_⟩
  intro s i
  simp only [cleanup_false]
  exact shutdownInst_idem s i

end Tracing

